import Mathlib

/-!
Verification development for the multi-stage land-planner workflow
(src/App.tsx, src/services/geminiService.ts, src/types.ts).

The TypeScript React component is shallowly embedded as follows:
* the collection of useState fields of the App component becomes the
  structure Session;
* each event handler / effect becomes a total Lean function from the
  session (plus the data carried by the event, and the outcomes of the
  external asynchronous calls it awaits, passed in as parameters) to the
  resulting session;
* JavaScript truthiness tests on string-or-null fields are modelled by
  jsTruthyStr (null and the empty string are falsy);
* localStorage is modelled as an Option holding the parsed saved record
  (with an extra Option layer distinguishing an unparseable record);
* the reachable states of the running application are the inductive
  closure of the initial startup load under the event steps exposed by
  the rendered UI at each stage.

Numbers produced by parseFloat on captures of the digit regexes
(\d+\.?\d*) are exact decimals, modelled as rationals.
-/

/-- Stage enumeration, from the AppStage union type in src/App.tsx. -/
inductive AppStage where
  | UPLOAD
  | ANALYSIS
  | BOUNDARY_REVIEW
  | BOUNDARY_EDIT
  | PRE_GENERATION_QUERY
  | ACCESS_POINTS
  | PLAN_OPTIONS
  | PLAN_REFINEMENT
  | PLAN_EDIT
  | PLAN_ANALYSIS
  deriving DecidableEq, Repr

/-- Message sender, from the ChatMessage interface in src/App.tsx. -/
inductive Sender where
  | bot
  | user
  deriving DecidableEq, Repr

/-- ChatMessage, from src/App.tsx: id is the Date.now timestamp (or the
small literal ids used for the initial messages), options is the optional
list of selectable strings. -/
structure ChatMessage where
  id : Int
  sender : Sender
  text : String
  options : Option (List String)
  deriving DecidableEq, Repr

/-- SiteDatapoints, from src/types.ts. The interface declares eleven
numeric fields including minNumLots, but no code path of the current
src/App.tsx or src/services/geminiService.ts ever assigns minNumLots
(parseDatapoints builds an object without it and the
updateDatapointsFromQuery schema omits it), so at runtime that property
can be undefined; the field is therefore embedded as an Option to record
the runtime shape faithfully. -/
structure SiteDatapoints where
  maxBuildableCoverage : ℚ
  minGreenCoverage : ℚ
  minOpenSpace : ℚ
  minLotSize : ℚ
  minLotWidth : ℚ
  minNumLots : Option ℚ
  frontSetback : ℚ
  rearSetback : ℚ
  sideSetback : ℚ
  roadWidth : ℚ
  sidewalkWidth : ℚ
  deriving DecidableEq, Repr

/-- Value of one entry of the planOptions record in src/App.tsx:
Record of network-style name to either a generated image url or null,
plus the fixed description. -/
structure PlanOption where
  url : Option String
  description : String
  deriving DecidableEq, Repr

/-- LoadingState, from src/App.tsx. -/
structure LoadingState where
  title : String
  messages : List String
  deriving DecidableEq, Repr

/-- JavaScript truthiness of a string-or-null value: null and the empty
string are falsy, every other string is truthy. -/
def jsTruthyStr : Option String → Bool
  | none => false
  | some s => s ≠ ""

/-- INITIAL_BOUNDARY_SUGGESTIONS constant from src/App.tsx. -/
def INITIAL_BOUNDARY_SUGGESTIONS : List String :=
  [ "Extend the boundary to the property line shown on the survey.",
    "The boundary is incorrect on the west side; it should follow the creek.",
    "Remove the small section that is outside the main property." ]

/-- INITIAL_PLAN_SUGGESTIONS constant from src/App.tsx. -/
def INITIAL_PLAN_SUGGESTIONS : List String :=
  [ "Consolidate the green space into a central community park with a playground.",
    "Reconfigure the lots on the west side to be deeper and less wide.",
    "Add a cul-de-sac at the end of the top-most road to improve safety." ]

/-- Decimal digit test, the \d class of the capture regexes. -/
def isDigitChar (c : Char) : Bool := decide ('0' ≤ c) && decide (c ≤ '9')

/-- Character class [\s:] separating a label from its number in the
parseDatapoints regexes (whitespace or colon). -/
def isSpaceColon (c : Char) : Bool :=
  c = ' ' || c = '\t' || c = '\n' || c = '\r' || c = ':'

/-- Numeric value of a list of decimal digit characters. -/
def digitsVal (l : List Char) : ℕ :=
  l.foldl (fun n c => 10 * n + (c.toNat - '0'.toNat)) 0

/-- Value of a parseFloat on a capture of (\d+\.?\d*): integer digits
followed by an optional fraction. -/
def captureVal (ip fp : List Char) : ℚ :=
  (digitsVal ip : ℚ) + (digitsVal fp : ℚ) / (10 ^ fp.length)

/-- Matching of the tail of one parseDatapoints regex at a fixed
position: [\s:]* then the capture (\d+\.?\d*), returning the parseFloat
of the capture, or none when no digit follows. -/
def tryMatchNumber (after : List Char) : Option ℚ :=
  let rest := after.dropWhile isSpaceColon
  let ip := rest.takeWhile isDigitChar
  if ip.isEmpty then none
  else
    match rest.drop ip.length with
    | '.' :: rest2 => some (captureVal ip (rest2.takeWhile isDigitChar))
    | _ => some (captureVal ip [])

/-- Case-insensitive literal match of a label at the head of the text
(the /i flag of the parseDatapoints regexes); returns the remaining
text on success. -/
def stripLabelCI : List Char → List Char → Option (List Char)
  | [], t => some t
  | _ :: _, [] => none
  | l :: ls, t :: ts =>
      if l.toLower = t.toLower then stripLabelCI ls ts else none

/-- Left-to-right scan of the text for the first position where the
whole regex (label, separators, number capture) matches, as the
JavaScript text.match does. -/
def findLabeledNumber (label : List Char) : List Char → Option ℚ
  | [] =>
      match stripLabelCI label [] with
      | some rest => tryMatchNumber rest
      | none => none
  | t :: ts =>
      match stripLabelCI label (t :: ts) with
      | some rest =>
          match tryMatchNumber rest with
          | some v => some v
          | none => findLabeledNumber label ts
      | none => findLabeledNumber label ts

/-- Embedding of the local extractValue of parseDatapoints in
src/App.tsx: each regex is a literal label followed by [\s:]* and the
numeric capture, searched case-insensitively; parseFloat of the capture
is returned, null when there is no match. -/
def extractValue (label : String) (text : String) : Option ℚ :=
  findLabeledNumber label.toList text.toList

/-- parseDatapoints from src/App.tsx (lines 439-470): each of the ten
assigned fields is the extracted value or the hard default; the
minNumLots field of the SiteDatapoints interface is never assigned, so
the returned object leaves it undefined (none). -/
def parseDatapoints (text : String) : SiteDatapoints :=
  { maxBuildableCoverage :=
      (extractValue "Maximum buildable coverage (%)" text).getD 50
    minGreenCoverage := (extractValue "Minimum green coverage (%)" text).getD 20
    minOpenSpace := (extractValue "Minimum open space (%)" text).getD 15
    minLotSize := (extractValue "Minimum lot size (sq ft)" text).getD 5000
    minLotWidth := (extractValue "Minimum lot width (ft)" text).getD 50
    minNumLots := none
    frontSetback := (extractValue "Front (ft)" text).getD 20
    rearSetback := (extractValue "Rear (ft)" text).getD 20
    sideSetback := (extractValue "Side (ft)" text).getD 10
    roadWidth := (extractValue "Road width (ft)" text).getD 24
    sidewalkWidth := (extractValue "Sidewalk width (ft)" text).getD 5 }

/-- Session, the collection of the useState fields of the App component
in src/App.tsx (transient UI-only fields such as currentLoadingMessage
are omitted; loadingState keeps its title and message list). -/
structure Session where
  appStage : AppStage
  surveyPdf : Option String
  surveyImageUrl : Option String
  boundaryImageUrl : Option String
  accessPointsImageUrl : Option String
  sitePlanImageUrl : Option String
  planOptions : List (String × PlanOption)
  isGeneratingPlans : Bool
  planAnalysis : Option String
  isLoading : Bool
  loadingState : Option LoadingState
  error : Option String
  messages : List ChatMessage
  projectPurpose : Option String
  designPriority : Option String
  aiRecommendations : Option String
  datapoints : Option SiteDatapoints
  surveySummary : Option String
  isBotThinking : Bool
  isSummaryLoading : Bool
  boundarySuggestions : List String
  planSuggestions : List String
  isFetchingBoundarySuggestions : Bool
  isFetchingPlanSuggestions : Bool
  isStateLoaded : Bool
  deriving DecidableEq, Repr

/-- Initial values of every useState field of the App component. -/
def initialSession : Session :=
  { appStage := AppStage.UPLOAD
    surveyPdf := none
    surveyImageUrl := none
    boundaryImageUrl := none
    accessPointsImageUrl := none
    sitePlanImageUrl := none
    planOptions := []
    isGeneratingPlans := false
    planAnalysis := none
    isLoading := false
    loadingState := none
    error := none
    messages := []
    projectPurpose := none
    designPriority := none
    aiRecommendations := none
    datapoints := none
    surveySummary := none
    isBotThinking := false
    isSummaryLoading := false
    boundarySuggestions := INITIAL_BOUNDARY_SUGGESTIONS
    planSuggestions := INITIAL_PLAN_SUGGESTIONS
    isFetchingBoundarySuggestions := false
    isFetchingPlanSuggestions := false
    isStateLoaded := false }

/-- handleUploadNew from src/App.tsx (lines 264-292): full reset of all
data, chat, loading and error state, back to the UPLOAD stage.  The two
suggestion lists and isStateLoaded are not touched by the handler. -/
def handleUploadNew (s : Session) : Session :=
  { s with
    surveyPdf := none
    surveyImageUrl := none
    boundaryImageUrl := none
    accessPointsImageUrl := none
    sitePlanImageUrl := none
    planOptions := []
    planAnalysis := none
    datapoints := none
    surveySummary := none
    messages := []
    projectPurpose := none
    designPriority := none
    aiRecommendations := none
    error := none
    isLoading := false
    loadingState := none
    isGeneratingPlans := false
    isBotThinking := false
    isSummaryLoading := false
    appStage := AppStage.UPLOAD }

/-- handleBack from src/App.tsx (lines 294-329): the stage-indexed
backward map; back from ANALYSIS is the full reset, back from
PLAN_REFINEMENT clears the plan artifact and the analysis text, back
from UPLOAD is a no-op. -/
def handleBack (s : Session) : Session :=
  match s.appStage with
  | AppStage.ANALYSIS => handleUploadNew s
  | AppStage.BOUNDARY_REVIEW => { s with appStage := AppStage.ANALYSIS }
  | AppStage.BOUNDARY_EDIT => { s with appStage := AppStage.BOUNDARY_REVIEW }
  | AppStage.PRE_GENERATION_QUERY => { s with appStage := AppStage.BOUNDARY_REVIEW }
  | AppStage.ACCESS_POINTS => { s with appStage := AppStage.PRE_GENERATION_QUERY }
  | AppStage.PLAN_OPTIONS => { s with appStage := AppStage.PRE_GENERATION_QUERY }
  | AppStage.PLAN_EDIT => { s with appStage := AppStage.PLAN_REFINEMENT }
  | AppStage.PLAN_REFINEMENT =>
      { s with
        sitePlanImageUrl := none
        planAnalysis := none
        appStage := AppStage.PLAN_OPTIONS }
  | AppStage.PLAN_ANALYSIS => { s with appStage := AppStage.PLAN_REFINEMENT }
  | AppStage.UPLOAD => s

/-- Truthiness of the appStage test in summarizeGuard and others needs
only equality on stages; truthiness of the datapoints object: a
JavaScript object is always truthy, so the test is presence. -/
def jsTruthyDp (o : Option SiteDatapoints) : Bool := o.isSome

/-- Guard of the fetchSummary effect in src/App.tsx (lines 332-352):
run only in the ANALYSIS stage, with a survey image, no summary yet,
and the initial restore completed. -/
def summarizeGuard (s : Session) : Bool :=
  decide (s.appStage = AppStage.ANALYSIS) && jsTruthyStr s.surveyImageUrl
    && !(jsTruthyStr s.surveySummary) && s.isStateLoaded

/-- Success continuation of the fetchSummary effect: setError(null) ran
before the call, the summary is stored, the loading flag dropped. -/
def applySummarySuccess (s : Session) (summary : String) : Session :=
  { s with error := none, surveySummary := some summary, isSummaryLoading := false }

/-- Failure continuation of the fetchSummary effect. -/
def applySummaryFailure (s : Session) (msg : String) : Session :=
  { s with
    error := some ("Failed to get survey summary. " ++ msg)
    isSummaryLoading := false }

/-- Clearing of the options of the last message, the in-place mutation
messagesForApi[messagesForApi.length - 1].options = undefined in
handleOptionSelect (src/App.tsx lines 475-478); the empty log is left
unchanged (the mutation is guarded by length > 0). -/
def clearLastOptions : List ChatMessage → List ChatMessage
  | [] => []
  | [m] => [{ m with options := none }]
  | m :: m2 :: rest => m :: clearLastOptions (m2 :: rest)

/-- Conversation log immediately after the user picks an option:
the latest message loses its options and the user message is pushed
(src/App.tsx lines 473-480). -/
def handleOptionSelectMessages (msgs : List ChatMessage) (userMsg : ChatMessage) :
    List ChatMessage :=
  clearLastOptions msgs ++ [userMsg]

/-- Case-sensitive prefix test on character lists, for the
String.indexOf of the data-points marker. -/
def prefixEq : List Char → List Char → Bool
  | [], _ => true
  | _ :: _, [] => false
  | a :: as, b :: bs => a = b && prefixEq as bs

/-- Index of the first occurrence of a pattern in a text
(String.indexOf), none when absent. -/
def indexOfSub (pat : List Char) : List Char → Option ℕ
  | [] => if prefixEq pat [] then some 0 else none
  | t :: ts =>
      if prefixEq pat (t :: ts) then some 0
      else (indexOfSub pat ts).map (fun n => n + 1)

/-- Marker splitting in the priority branch of handleOptionSelect
(src/App.tsx lines 502-511): the data-points string is the suffix of
the recommendations response from the first occurrence of
"- Coverage Constraints:", or the whole response when the marker is
absent. -/
def dataPointsStringOf (resp : String) : String :=
  match indexOfSub "- Coverage Constraints:".toList resp.toList with
  | some i => String.mk (resp.toList.drop i)
  | none => resp

/-- Options offered with the first bot message (purpose question). -/
def purposeOptions : List String := ["Commercial", "Industrial", "Residential"]

/-- Options offered with the second bot message (priority question). -/
def priorityOptions : List String :=
  ["Maximize Lot Yield", "Minimize Road Length", "Balanced Layout"]

/-- Initial chat message created by the chat-start effect
(src/App.tsx lines 354-365) once the summary is available. -/
def initialSummaryMessage (summary : String) : ChatMessage :=
  { id := 1
    sender := Sender.bot
    text := summary ++ "\n\nNow, to create the perfect site plan, I need to understand your project. First, could you tell me the purpose of this development?"
    options := some purposeOptions }

/-- Bot message following the purpose answer in handleOptionSelect. -/
def priorityQuestionMessage (nowId : Int) : ChatMessage :=
  { id := nowId + 1
    sender := Sender.bot
    text := "Great. Now, let\x27s think about your priorities for the design. What is the main goal you want to achieve with the layout?"
    options := some priorityOptions }

/-- Purpose branch of handleOptionSelect (src/App.tsx lines 483-491):
clear the consumed options, push the user message, record the purpose
and push the priority question. -/
def optionSelectPurpose (s : Session) (option : String) (nowId : Int) : Session :=
  { s with
    messages :=
      handleOptionSelectMessages s.messages
          { id := nowId, sender := Sender.user, text := option, options := none }
        ++ [priorityQuestionMessage nowId]
    projectPurpose := some option }

/-- Fallback reasoning text of the priority branch. -/
def fallbackReasoning : String :=
  "Based on my analysis, here are the recommended parameters for your project. You can adjust them below before we proceed."

/-- Reasoning part of the recommendations response (prefix before the
marker, trimmed), or the fallback when the marker is absent. -/
def reasoningOf (resp : String) : String :=
  match indexOfSub "- Coverage Constraints:".toList resp.toList with
  | some i => (String.mk (resp.toList.take i)).trim
  | none => fallbackReasoning

/-- Bot message carrying the recommendations in the priority branch. -/
def recommendationsMessage (nowId : Int) (resp : String) : ChatMessage :=
  { id := nowId + 2
    sender := Sender.bot
    text := reasoningOf resp ++ "\n\nI\x27ve populated the form below with specific values based on this analysis. Feel free to adjust them before we detect the site boundary."
    options := none }

/-- Priority branch of handleOptionSelect (src/App.tsx lines 492-532)
with the outcome of the getSitePlanDatapoints call passed in: on
success the thinking message is replaced by the recommendations message
and the parsed datapoints are stored; on failure the thinking message
is removed and the session error is set. -/
def optionSelectPriority (s : Session) (option : String) (nowId : Int)
    (outcome : Except String String) : Session :=
  let afterUser :=
    handleOptionSelectMessages s.messages
      { id := nowId, sender := Sender.user, text := option, options := none }
  match outcome with
  | Except.ok resp =>
      { s with
        messages := afterUser ++ [recommendationsMessage nowId resp]
        designPriority := some option
        datapoints := some (parseDatapoints (dataPointsStringOf resp))
        aiRecommendations := some (dataPointsStringOf resp)
        isBotThinking := false }
  | Except.error msg =>
      { s with
        messages := afterUser
        designPriority := some option
        error := some ("Failed to get recommendations. " ++ msg)
        isBotThinking := false }

/-- handleFileSelect composed with processUploadedPdf from src/App.tsx
(lines 381-437): a non-PDF file only sets the inline error; a PDF file
first runs the full reset of handleUploadNew, stores the file, then
rasterization either yields the survey image and the ANALYSIS stage or
fails, clearing the file again and surfacing the conversion error at
the UPLOAD stage. -/
def fileSelectResult (s : Session) (isPdf : Bool) (name : String)
    (outcome : Except String String) : Session :=
  if !isPdf then
    { s with error := some "Invalid file type. Please upload a PDF file." }
  else
    match outcome with
    | Except.ok url =>
        { handleUploadNew s with
          surveyPdf := some name
          surveyImageUrl := some url
          appStage := AppStage.ANALYSIS }
    | Except.error msg =>
        { handleUploadNew s with
          surveyPdf := none
          error := some ("Failed to process PDF. " ++ msg)
          appStage := AppStage.UPLOAD }

/-- handleStartBoundaryDetection from src/App.tsx (lines 537-561) with
the detection outcome passed in. -/
def detectBoundaryResult (s : Session) (outcome : Except String String) : Session :=
  if !(jsTruthyStr s.surveyImageUrl) then
    { s with error := some "Survey image is not available." }
  else
    match outcome with
    | Except.ok url =>
        { s with
          error := none
          boundaryImageUrl := some url
          appStage := AppStage.BOUNDARY_REVIEW
          isLoading := false
          loadingState := none }
    | Except.error msg =>
        { s with
          error := some ("Failed to detect site boundary. " ++ msg)
          isLoading := false
          loadingState := none }

/-- Update of the boundary suggestion list after a boundary refinement
(src/App.tsx lines 578-587): the fetched list on success, the fixed
initial list when the suggestion fetch throws. -/
def boundarySuggestionUpdate : Except Unit (List String) → List String
  | Except.ok l => l
  | Except.error _ => INITIAL_BOUNDARY_SUGGESTIONS

/-- Update of the plan suggestion list after a plan refinement
(src/App.tsx lines 712-721 and 754-763). -/
def planSuggestionUpdate : Except Unit (List String) → List String
  | Except.ok l => l
  | Except.error _ => INITIAL_PLAN_SUGGESTIONS

/-- handleRefineBoundary from src/App.tsx (lines 563-596) with the
refinement outcome and the suggestion-fetch outcome passed in. -/
def refineBoundaryResult (s : Session) (outcome : Except String String)
    (sugOutcome : Except Unit (List String)) : Session :=
  if !(jsTruthyStr s.surveyImageUrl && jsTruthyStr s.boundaryImageUrl) then
    { s with error := some "Cannot refine boundary without a survey image and an existing boundary." }
  else
    match outcome with
    | Except.ok url =>
        { s with
          error := none
          boundaryImageUrl := some url
          appStage := AppStage.BOUNDARY_REVIEW
          boundarySuggestions := boundarySuggestionUpdate sugOutcome
          isFetchingBoundarySuggestions := false }
    | Except.error msg =>
        { s with error := some ("Failed to refine boundary. " ++ msg) }

/-- networkTypes constant from handleGeneratePlanOptions
(src/App.tsx lines 607-614): the six concept candidates. -/
def networkTypes : List (String × String) :=
  [ ("Grid", "A classic criss-cross pattern, efficient and easy to navigate."),
    ("Radial", "Roads spread out from a central point, often creating a focal point."),
    ("Circular", "Features roads that form loops or circles, good for traffic calming."),
    ("Hierarchical", "A mix of major arterial roads and smaller local streets for efficient traffic flow."),
    ("Organic", "A flowing, curvilinear layout that follows natural contours, creating a scenic feel."),
    ("Cul-de-sac", "Prioritizes dead-end streets to maximize privacy and safety by eliminating through-traffic.") ]

/-- Placeholder map created before generation starts (src/App.tsx line
616): every candidate name mapped to a null url and its description. -/
def planPlaceholders : List (String × PlanOption) :=
  networkTypes.map (fun nt => (nt.1, { url := none, description := nt.2 }))

/-- Keyed merge performed by one candidate completion (src/App.tsx
lines 649-652): the spread of the previous record with only the slot of
the completed candidate replaced, keeping its description. -/
def setPlanOptionUrl (m : List (String × PlanOption)) (name url : String) :
    List (String × PlanOption) :=
  m.map (fun e =>
    if e.1 = name then (e.1, { url := some url, description := e.2.description }) else e)

/-- Sequential per-candidate generation loop (src/App.tsx lines
646-657): each candidate with a successful outcome merges its own url;
a failed candidate performs no update at all (its failure is only
logged). The outcomes oracle gives, per candidate name, the successful
url or none for a failed generation call. -/
def runGenerationLoop (outcomes : String → Option String) : List (String × PlanOption) :=
  networkTypes.foldl
    (fun m nt =>
      match outcomes nt.1 with
      | some u => setPlanOptionUrl m nt.1 u
      | none => m)
    planPlaceholders

/-- Guard of handleGeneratePlanOptions (src/App.tsx line 599). -/
def generatePlanOptionsGuard (s : Session) : Bool :=
  jsTruthyStr s.surveyImageUrl && jsTruthyStr s.boundaryImageUrl
    && jsTruthyStr s.projectPurpose && jsTruthyStr s.designPriority
    && jsTruthyDp s.datapoints

/-- handleGeneratePlanOptions from src/App.tsx (lines 598-666).  The
guard failure only sets the error; otherwise the stage is moved to
PLAN_OPTIONS and the placeholders installed before any call resolves.
The getSiteArea call and the area/lot-count arithmetic (lines 625-644)
only parametrize the prompts of the external generation calls, whose
results the outcomes oracle carries; a getSiteArea failure hits the
outer catch and sets the session error.  Per-candidate failures inside
the loop never touch the error field. -/
def generatePlanOptionsResult (s : Session) (areaOutcome : Except String Unit)
    (outcomes : String → Option String) : Session :=
  if !(generatePlanOptionsGuard s) then
    { s with error := some "Required information is missing. Please complete all steps." }
  else
    match areaOutcome with
    | Except.ok _ =>
        { s with
          error := none
          appStage := AppStage.PLAN_OPTIONS
          planOptions := runGenerationLoop outcomes
          isGeneratingPlans := false }
    | Except.error msg =>
        { s with
          error := some ("Failed to generate the site plan options. " ++ msg)
          appStage := AppStage.PLAN_OPTIONS
          planOptions := planPlaceholders
          isGeneratingPlans := false }

/-- handleConfirmAccessPoints from src/App.tsx (lines 668-677): the
access-points overlay is stored for persistence and generation starts
with the marked file. -/
def confirmAccessPointsResult (s : Session) (apUrl : String)
    (areaOutcome : Except String Unit) (outcomes : String → Option String) : Session :=
  generatePlanOptionsResult { s with accessPointsImageUrl := some apUrl }
    areaOutcome outcomes

/-- handleSelectPlanOption from src/App.tsx (lines 679-683). -/
def handleSelectPlanOption (s : Session) (url : String) : Session :=
  { s with
    sitePlanImageUrl := some url
    planSuggestions := INITIAL_PLAN_SUGGESTIONS
    appStage := AppStage.PLAN_REFINEMENT }

/-- handleRefineSitePlan from src/App.tsx (lines 685-731), with the
outcomes of updateDatapointsFromQuery, refineSitePlan and the
suggestion fetch passed in.  The new datapoints are committed as soon
as the update call succeeds, even when the visual refinement then
fails. -/
def refineSitePlanResult (s : Session) (dpOutcome : Except String SiteDatapoints)
    (refOutcome : Except String String) (sugOutcome : Except Unit (List String)) :
    Session :=
  if !(jsTruthyStr s.sitePlanImageUrl && jsTruthyStr s.surveyImageUrl
      && jsTruthyStr s.projectPurpose && jsTruthyStr s.designPriority) then
    { s with error := some "Cannot refine plan without an active plan and project goals." }
  else
    match dpOutcome with
    | Except.error msg =>
        { s with
          error := some ("Failed to refine site plan. " ++ msg)
          isLoading := false
          loadingState := none }
    | Except.ok nd =>
        match refOutcome with
        | Except.error msg =>
            { s with
              datapoints := some nd
              error := some ("Failed to refine site plan. " ++ msg)
              isLoading := false
              loadingState := none }
        | Except.ok url =>
            { s with
              datapoints := some nd
              sitePlanImageUrl := some url
              planSuggestions := planSuggestionUpdate sugOutcome
              isFetchingPlanSuggestions := false
              error := none
              isLoading := false
              loadingState := none }

/-- handleVisualRefineSitePlan from src/App.tsx (lines 733-770). -/
def visualRefineResult (s : Session) (outcome : Except String String)
    (sugOutcome : Except Unit (List String)) : Session :=
  if !(jsTruthyStr s.sitePlanImageUrl && jsTruthyStr s.surveyImageUrl
      && jsTruthyDp s.datapoints) then
    { s with error := some "Required information is missing for visual refinement." }
  else
    match outcome with
    | Except.ok url =>
        { s with
          error := none
          sitePlanImageUrl := some url
          appStage := AppStage.PLAN_REFINEMENT
          planSuggestions := planSuggestionUpdate sugOutcome
          isFetchingPlanSuggestions := false }
    | Except.error msg =>
        { s with error := some ("Failed to refine plan visually. " ++ msg) }

/-- handleAnalyzeSitePlan from src/App.tsx (lines 772-796): the
streaming analysis accumulates the chunks in order; on a stream failure
the chunks received so far remain accumulated, the error is set and the
stage returns to PLAN_REFINEMENT (it was set to PLAN_ANALYSIS before
the stream started). -/
def analyzeResult (s : Session) (outcome : Except (List String × String) (List String)) :
    Session :=
  if !(jsTruthyStr s.sitePlanImageUrl && jsTruthyDp s.datapoints) then
    { s with error := some "Generated plan or datapoints not available for analysis." }
  else
    match outcome with
    | Except.ok chunks =>
        { s with
          error := none
          planAnalysis := some (String.join chunks)
          appStage := AppStage.PLAN_ANALYSIS
          isLoading := false }
    | Except.error (chunks, msg) =>
        { s with
          error := some ("Failed to analyze the site plan. " ++ msg)
          planAnalysis := some (String.join chunks)
          appStage := AppStage.PLAN_REFINEMENT
          isLoading := false }

/-- SavedState: the record serialized to localStorage by the save
effect (src/App.tsx lines 237-251).  JSON.stringify followed by
JSON.parse is the identity on these value shapes (strings, numbers,
null, arrays, plain objects), so the record is modelled directly; a
record whose physical bytes do not parse is modelled separately at the
storage layer. -/
structure SavedState where
  appStage : AppStage
  surveyImageUrl : Option String
  boundaryImageUrl : Option String
  accessPointsImageUrl : Option String
  sitePlanImageUrl : Option String
  planOptions : List (String × PlanOption)
  planAnalysis : Option String
  messages : List ChatMessage
  projectPurpose : Option String
  designPriority : Option String
  aiRecommendations : Option String
  datapoints : Option SiteDatapoints
  surveySummary : Option String
  deriving DecidableEq, Repr

/-- Serialization of the durable subset of the session (the
stateToSave object, src/App.tsx lines 237-251). -/
def save (s : Session) : SavedState :=
  { appStage := s.appStage
    surveyImageUrl := s.surveyImageUrl
    boundaryImageUrl := s.boundaryImageUrl
    accessPointsImageUrl := s.accessPointsImageUrl
    sitePlanImageUrl := s.sitePlanImageUrl
    planOptions := s.planOptions
    planAnalysis := s.planAnalysis
    messages := s.messages
    projectPurpose := s.projectPurpose
    designPriority := s.designPriority
    aiRecommendations := s.aiRecommendations
    datapoints := s.datapoints
    surveySummary := s.surveySummary }

/-- Coercion performed by the restore pattern savedState.x || null on a
string field: a falsy saved value (null or the empty string) restores
as null. -/
def jsOrNone : Option String → Option String
  | some "" => none
  | o => o

/-- Restore of a successfully parsed record (src/App.tsx lines
204-216): each field is re-installed through its JavaScript
default-or fallback; the appStage string written by save is one of the
ten non-empty stage names, so savedState.appStage || UPLOAD restores
it unchanged; objects and arrays (planOptions, datapoints, messages)
are truthy regardless of content and restore unchanged.  Fields
outside the saved record (file handle, suggestions, flags, error)
keep their initial values, and isStateLoaded becomes true. -/
def restoreFromSaved (r : SavedState) : Session :=
  { initialSession with
    appStage := r.appStage
    surveyImageUrl := jsOrNone r.surveyImageUrl
    boundaryImageUrl := jsOrNone r.boundaryImageUrl
    accessPointsImageUrl := jsOrNone r.accessPointsImageUrl
    sitePlanImageUrl := jsOrNone r.sitePlanImageUrl
    planOptions := r.planOptions
    planAnalysis := jsOrNone r.planAnalysis
    messages := r.messages
    projectPurpose := jsOrNone r.projectPurpose
    designPriority := jsOrNone r.designPriority
    aiRecommendations := jsOrNone r.aiRecommendations
    datapoints := r.datapoints
    surveySummary := jsOrNone r.surveySummary
    isStateLoaded := true }

/-- Startup restore effect (src/App.tsx lines 199-224) over the
storage content: none is an absent record, some none a record whose
JSON fails to parse (the catch deletes it and the session starts
fresh), some (some r) a parseable record (restored and left in
place).  The second component is the storage content afterwards. -/
def startupLoad (stored : Option (Option SavedState)) :
    Session × Option (Option SavedState) :=
  match stored with
  | none => ({ initialSession with isStateLoaded := true }, none)
  | some none => ({ initialSession with isStateLoaded := true }, none)
  | some (some r) => (restoreFromSaved r, some (some r))

/-- Storage content after the save effect has run on a session
(src/App.tsx lines 227-262): in the UPLOAD stage without a survey
image the record is deleted, otherwise the serialized snapshot is
written. -/
def storageAfterSave (s : Session) : Option (Option SavedState) :=
  if s.appStage = AppStage.UPLOAD && !(jsTruthyStr s.surveyImageUrl) then none
  else some (some (save s))

/-- Session after a page reload: the save effect has persisted the
current session (it runs after every state change), and the startup
effect restores from that storage. -/
def restartSession (s : Session) : Session :=
  (startupLoad (storageAfterSave s)).1

/-- JSON value, the result shape of JSON.parse (an external
primitive), needed to embed the validation logic of the suggestion
adapters in src/services/geminiService.ts. -/
inductive JsonValue where
  | null
  | bool (b : Bool)
  | num (q : ℚ)
  | str (s : String)
  | arr (l : List JsonValue)
  | obj (l : List (String × JsonValue))

/-- Check that every element of a parsed JSON array is a string
(resultJson.every with typeof item === string). -/
def asStrings : List JsonValue → Option (List String)
  | [] => some []
  | JsonValue.str s :: rest => (asStrings rest).map (fun l => s :: l)
  | _ :: _ => none

/-- Array.isArray combined with the element check of the suggestion
adapters. -/
def asStringArray : JsonValue → Option (List String)
  | JsonValue.arr l => asStrings l
  | _ => none

/-- Validation tail of getBoundaryRefinementSuggestions and
getPlanRefinementSuggestions (src/services/geminiService.ts lines
779-793 and 839-853): the parse outcome of the backtick-stripped
response text is passed in (none when JSON.parse throws); a parsed
array of strings is returned as-is, any other parse outcome yields the
empty list without throwing. -/
def suggestionsFromParse (p : Option JsonValue) : List String :=
  match p with
  | none => []
  | some j =>
      match asStringArray j with
      | some l => l
      | none => []

/-- Test that an option string is one of the options carried by the
latest message: the UI renders one button per option of the last
message only (src/App.tsx lines 114-121). -/
def lastOptionsContain (s : Session) (option : String) : Bool :=
  match s.messages.getLast? with
  | some m => (m.options.getD []).contains option
  | none => false

/-- Event steps of the running application.  Each constructor is one
user action or effect completion wired by the render code of
src/App.tsx, constrained to the stages in which the corresponding
control or effect exists; the asynchronous outcomes of the external
calls awaited by the handler are carried by the event. -/
inductive Step : Session → Session → Prop where
  | fileSelect (s : Session) (isPdf : Bool) (name : String)
      (outcome : Except String String) :
      s.appStage = AppStage.UPLOAD →
      Step s (fileSelectResult s isPdf name outcome)
  | summaryOk (s : Session) (summary : String) :
      summarizeGuard s = true →
      Step s (applySummarySuccess s summary)
  | summaryErr (s : Session) (msg : String) :
      summarizeGuard s = true →
      Step s (applySummaryFailure s msg)
  | chatStart (s : Session) (summary : String) :
      s.surveySummary = some summary →
      jsTruthyStr s.surveySummary = true →
      s.messages = [] →
      s.appStage = AppStage.ANALYSIS →
      Step s { s with messages := [initialSummaryMessage summary] }
  | selectPurpose (s : Session) (option : String) (nowId : Int) :
      s.appStage = AppStage.ANALYSIS →
      s.isBotThinking = false →
      lastOptionsContain s option = true →
      s.messages.length = 1 →
      Step s (optionSelectPurpose s option nowId)
  | selectPriority (s : Session) (option : String) (nowId : Int)
      (outcome : Except String String) :
      s.appStage = AppStage.ANALYSIS →
      s.isBotThinking = false →
      lastOptionsContain s option = true →
      s.messages.length ≠ 1 →
      Step s (optionSelectPriority s option nowId outcome)
  | editDatapoints (s : Session) (d : SiteDatapoints) :
      s.appStage = AppStage.ANALYSIS ∨ s.appStage = AppStage.PLAN_REFINEMENT →
      Step s { s with datapoints := some d }
  | detectBoundary (s : Session) (outcome : Except String String) :
      s.appStage = AppStage.ANALYSIS ∨ s.appStage = AppStage.BOUNDARY_REVIEW →
      Step s (detectBoundaryResult s outcome)
  | confirmBoundary (s : Session) :
      s.appStage = AppStage.BOUNDARY_REVIEW →
      Step s { s with appStage := AppStage.PRE_GENERATION_QUERY }
  | startBoundaryEdit (s : Session) :
      s.appStage = AppStage.BOUNDARY_REVIEW →
      Step s { s with
               boundarySuggestions := INITIAL_BOUNDARY_SUGGESTIONS
               appStage := AppStage.BOUNDARY_EDIT }
  | refineBoundary (s : Session) (outcome : Except String String)
      (sugOutcome : Except Unit (List String)) :
      s.appStage = AppStage.BOUNDARY_EDIT →
      Step s (refineBoundaryResult s outcome sugOutcome)
  | declineAccessPoints (s : Session) (areaOutcome : Except String Unit)
      (outcomes : String → Option String) :
      s.appStage = AppStage.PRE_GENERATION_QUERY →
      Step s (generatePlanOptionsResult s areaOutcome outcomes)
  | chooseAccessPoints (s : Session) :
      s.appStage = AppStage.PRE_GENERATION_QUERY →
      Step s { s with appStage := AppStage.ACCESS_POINTS }
  | confirmAccessPoints (s : Session) (apUrl : String)
      (areaOutcome : Except String Unit) (outcomes : String → Option String) :
      s.appStage = AppStage.ACCESS_POINTS →
      Step s (confirmAccessPointsResult s apUrl areaOutcome outcomes)
  | selectPlan (s : Session) (name url desc : String) :
      s.appStage = AppStage.PLAN_OPTIONS →
      (name, PlanOption.mk (some url) desc) ∈ s.planOptions →
      Step s (handleSelectPlanOption s url)
  | refinePlan (s : Session) (dpOutcome : Except String SiteDatapoints)
      (refOutcome : Except String String) (sugOutcome : Except Unit (List String)) :
      s.appStage = AppStage.PLAN_REFINEMENT →
      Step s (refineSitePlanResult s dpOutcome refOutcome sugOutcome)
  | startPlanEdit (s : Session) :
      s.appStage = AppStage.PLAN_REFINEMENT →
      jsTruthyStr s.sitePlanImageUrl = true →
      jsTruthyDp s.datapoints = true →
      Step s { s with appStage := AppStage.PLAN_EDIT }
  | analyze (s : Session) (outcome : Except (List String × String) (List String)) :
      s.appStage = AppStage.PLAN_REFINEMENT →
      Step s (analyzeResult s outcome)
  | visualRefine (s : Session) (outcome : Except String String)
      (sugOutcome : Except Unit (List String)) :
      s.appStage = AppStage.PLAN_EDIT →
      Step s (visualRefineResult s outcome sugOutcome)
  | backToRefinement (s : Session) :
      s.appStage = AppStage.PLAN_ANALYSIS →
      Step s { s with appStage := AppStage.PLAN_REFINEMENT }
  | back (s : Session) :
      Step s (handleBack s)
  | uploadNew (s : Session) :
      Step s (handleUploadNew s)
  | reload (s : Session) :
      Step s (restartSession s)

/-- Reachable sessions: the startup load over empty storage, closed
under the event steps (a reload step replays the persistence cycle,
since the save effect runs after every state change). -/
inductive ReachableSession : Session → Prop where
  | init : ReachableSession (startupLoad none).1
  | step {s s' : Session} :
      ReachableSession s → Step s s' → ReachableSession s'

/-- Predecessor fields that the concept-selection stage and the stages
behind it require: a truthy boundary overlay, purpose, priority, and a
present parameters object. -/
def planStageFieldsSet (s : Session) : Prop :=
  jsTruthyStr s.boundaryImageUrl = true ∧ jsTruthyStr s.projectPurpose = true
    ∧ jsTruthyStr s.designPriority = true ∧ s.datapoints.isSome = true

/-- Stage invariant: in PLAN_OPTIONS and every stage past it, the
required predecessor fields are set. -/
def sessionInv (s : Session) : Prop :=
  (s.appStage = AppStage.PLAN_OPTIONS ∨ s.appStage = AppStage.PLAN_REFINEMENT
      ∨ s.appStage = AppStage.PLAN_EDIT ∨ s.appStage = AppStage.PLAN_ANALYSIS) →
    planStageFieldsSet s

/-- Lookup of a candidate slot by its network-style name in the
planOptions record. -/
def lookupPlanOption (m : List (String × PlanOption)) (name : String) :
    Option PlanOption :=
  (m.find? (fun e => e.1 == name)).map (fun e => e.2)

/-- Concrete datapoints value used by sample runs (the defaults of
parseDatapoints with minNumLots left undefined). -/
def sampleDatapoints : SiteDatapoints :=
  { maxBuildableCoverage := 50
    minGreenCoverage := 20
    minOpenSpace := 15
    minLotSize := 5000
    minLotWidth := 50
    minNumLots := none
    frontSetback := 20
    rearSetback := 20
    sideSetback := 10
    roadWidth := 24
    sidewalkWidth := 5 }

/-- Sample run of the workflow: session after the startup load over
empty storage. -/
def cS0 : Session := (startupLoad none).1

/-- Sample run: a valid PDF is selected and rasterizes successfully. -/
def cS1 : Session :=
  fileSelectResult cS0 true "site.pdf" (Except.ok "data:image/jpeg;base64,AAAA")

/-- Sample run: the survey summarization succeeds. -/
def cS2 : Session := applySummarySuccess cS1 "### Site Survey Summary"

/-- Sample run: the chat-start effect posts the first bot message. -/
def cS3 : Session :=
  { cS2 with messages := [initialSummaryMessage "### Site Survey Summary"] }

/-- Sample run: the user picks the Residential purpose. -/
def cS4 : Session := optionSelectPurpose cS3 "Residential" 100

/-- Sample run: the user picks the Balanced Layout priority and the
recommendation call returns a bare parameter marker. -/
def cS5 : Session :=
  optionSelectPriority cS4 "Balanced Layout" 200 (Except.ok "- Coverage Constraints:")

/-- Sample run: boundary detection succeeds. -/
def cS6 : Session := detectBoundaryResult cS5 (Except.ok "data:image/png;base64,BBBB")

/-- Sample run: the user confirms the boundary. -/
def cS7 : Session := { cS6 with appStage := AppStage.PRE_GENERATION_QUERY }

/-- Sample per-candidate generation outcomes: every candidate succeeds
except Circular, whose generation call fails. -/
def sampleOutcomes : String → Option String :=
  fun name => if name = "Circular" then none else some ("data:image/png;base64," ++ name)

/-- Sample run: the user declines access points; the area call
succeeds and generation runs with sampleOutcomes. -/
def cS8 : Session := generatePlanOptionsResult cS7 (Except.ok ()) sampleOutcomes

/-- Concrete session sitting in the plan-refinement stage, for the
persistence and back-navigation witnesses. -/
def refinementSession : Session :=
  { initialSession with
    appStage := AppStage.PLAN_REFINEMENT
    surveyImageUrl := some "data:image/jpeg;base64,AAAA"
    boundaryImageUrl := some "data:image/png;base64,BBBB"
    sitePlanImageUrl := some "data:image/png;base64,CCCC"
    planAnalysis := some "## Constraint Compliance"
    projectPurpose := some "Residential"
    designPriority := some "Balanced Layout"
    datapoints := some sampleDatapoints
    isStateLoaded := true }

/-- Concrete session sitting in the plan-analysis stage. -/
def analysisStageSession : Session :=
  { refinementSession with appStage := AppStage.PLAN_ANALYSIS }

/-- Concrete session sitting in the boundary-edit stage, for the
suggestion-fallback witnesses. -/
def boundaryEditSession : Session :=
  { initialSession with
    appStage := AppStage.BOUNDARY_EDIT
    surveyImageUrl := some "data:image/jpeg;base64,AAAA"
    boundaryImageUrl := some "data:image/png;base64,BBBB"
    isStateLoaded := true }

theorem jsTruthyStr_jsOrNone (o : Option String) :
    jsTruthyStr (jsOrNone o) = jsTruthyStr o := by
  unfold jsOrNone
  split <;> simp_all [jsTruthyStr]

theorem step_preserves_sessionInv {s s' : Session}
    (inv : sessionInv s) (h : Step s s') : sessionInv s' := by
  cases h with
  | fileSelect isPdf name outcome hst =>
      intro hmem
      unfold fileSelectResult handleUploadNew at hmem
      split at hmem <;> [skip; split at hmem] <;> simp_all
  | summaryOk summary hg =>
      intro hmem
      unfold summarizeGuard at hg
      unfold applySummarySuccess at hmem
      simp_all
  | summaryErr msg hg =>
      intro hmem
      unfold summarizeGuard at hg
      unfold applySummaryFailure at hmem
      simp_all
  | chatStart summary h1 h2 h3 hst =>
      intro hmem
      simp_all
  | selectPurpose option nowId hst hb hl hn =>
      intro hmem
      unfold optionSelectPurpose at hmem
      simp_all
  | selectPriority option nowId outcome hst hb hl hn =>
      intro hmem
      unfold optionSelectPriority at hmem
      split at hmem <;> simp_all
  | editDatapoints d hst =>
      intro hmem
      rcases hst with hst | hst
      · simp_all
      · have hf := inv (by simp [hst])
        unfold planStageFieldsSet at hf ⊢
        simp_all
  | detectBoundary outcome hst =>
      intro hmem
      unfold detectBoundaryResult at hmem
      rcases hst with hst | hst <;>
        (split at hmem <;> [skip; split at hmem] <;> simp_all)
  | confirmBoundary hst =>
      intro hmem
      simp_all
  | startBoundaryEdit hst =>
      intro hmem
      simp_all
  | refineBoundary outcome sugOutcome hst =>
      intro hmem
      unfold refineBoundaryResult at hmem
      split at hmem <;> [skip; split at hmem] <;> simp_all
  | declineAccessPoints areaOutcome outcomes hst =>
      unfold generatePlanOptionsResult
      split
      · intro hmem; simp_all
      · rename_i hguard
        have hg : generatePlanOptionsGuard s = true := by
          simpa using hguard
        unfold generatePlanOptionsGuard at hg
        simp only [Bool.and_eq_true] at hg
        split <;>
          (intro _
           unfold planStageFieldsSet
           simp_all [jsTruthyDp])
  | chooseAccessPoints hst =>
      intro hmem
      simp_all
  | confirmAccessPoints apUrl areaOutcome outcomes hst =>
      unfold confirmAccessPointsResult generatePlanOptionsResult
      split
      · intro hmem; simp_all
      · rename_i hguard
        have hg : generatePlanOptionsGuard { s with accessPointsImageUrl := some apUrl } = true := by
          simpa using hguard
        unfold generatePlanOptionsGuard at hg
        simp only [Bool.and_eq_true] at hg
        split <;>
          (intro _
           unfold planStageFieldsSet
           simp_all [jsTruthyDp])
  | selectPlan name url desc hst hmemopt =>
      intro hmem
      have hf := inv (by simp [hst])
      unfold planStageFieldsSet at hf ⊢
      unfold handleSelectPlanOption
      simp_all
  | refinePlan dpOutcome refOutcome sugOutcome hst =>
      have hf := inv (by simp [hst])
      unfold planStageFieldsSet at hf
      unfold refineSitePlanResult
      intro hmem
      unfold planStageFieldsSet
      split
      · simp_all
      · split
        · simp_all
        · split <;> simp_all
  | startPlanEdit hst h1 h2 =>
      intro hmem
      have hf := inv (by simp [hst])
      unfold planStageFieldsSet at hf ⊢
      simp_all
  | analyze outcome hst =>
      have hf := inv (by simp [hst])
      unfold planStageFieldsSet at hf
      unfold analyzeResult
      intro hmem
      unfold planStageFieldsSet
      split
      · simp_all
      · split <;> simp_all
  | visualRefine outcome sugOutcome hst =>
      have hf := inv (by simp [hst])
      unfold planStageFieldsSet at hf
      unfold visualRefineResult
      intro hmem
      unfold planStageFieldsSet
      split
      · simp_all
      · split <;> simp_all
  | backToRefinement hst =>
      intro hmem
      have hf := inv (by simp [hst])
      unfold planStageFieldsSet at hf ⊢
      simp_all
  | back =>
      unfold handleBack
      split <;> rename_i hst
      · intro hmem; unfold handleUploadNew at hmem; simp_all
      · intro hmem; simp_all
      · intro hmem; simp_all
      · intro hmem; simp_all
      · intro hmem; simp_all
      · intro hmem; simp_all
      · intro hmem
        have hf := inv (by simp [hst])
        unfold planStageFieldsSet at hf ⊢
        simp_all
      · intro hmem
        have hf := inv (by simp [hst])
        unfold planStageFieldsSet at hf ⊢
        simp_all
      · intro hmem
        have hf := inv (by simp [hst])
        unfold planStageFieldsSet at hf ⊢
        simp_all
      · exact inv
  | uploadNew =>
      intro hmem
      unfold handleUploadNew at hmem
      simp_all
  | reload =>
      unfold restartSession storageAfterSave
      split
      · intro hmem; simp_all [startupLoad, initialSession]
      · rename_i hcond
        unfold startupLoad restoreFromSaved save
        intro hmem
        simp only at hmem
        have hf := inv (by simpa using hmem)
        unfold planStageFieldsSet at hf ⊢
        simp only [jsTruthyStr_jsOrNone]
        simp_all

theorem jsTruthyStr_isSome {o : Option String} (h : jsTruthyStr o = true) :
    o.isSome = true := by
  cases o <;> simp_all [jsTruthyStr]

theorem reachable_sessionInv {s : Session} (h : ReachableSession s) : sessionInv s := by
  induction h with
  | init =>
      intro hmem
      simp [startupLoad, initialSession] at hmem
  | step _ hs ih => exact step_preserves_sessionInv ih hs

/-- C1: in every reachable session, the PLAN_OPTIONS (concept
selection) stage is only ever occupied with the boundary overlay, the
project purpose, the design priority and the parameters object all
set; this covers entry through the guarded generation handler, through
back navigation from PLAN_REFINEMENT, and through the restore of a
persisted session at startup (the reload step). -/
theorem C1_plan_options_requires_predecessors {s : Session}
    (hr : ReachableSession s) (hst : s.appStage = AppStage.PLAN_OPTIONS) :
    s.boundaryImageUrl.isSome = true ∧ s.projectPurpose.isSome = true
      ∧ s.designPriority.isSome = true ∧ s.datapoints.isSome = true := by
  have hinv := reachable_sessionInv hr (Or.inl hst)
  obtain ⟨hb, hp, hd, hdp⟩ := hinv
  exact ⟨jsTruthyStr_isSome hb, jsTruthyStr_isSome hp, jsTruthyStr_isSome hd, hdp⟩

/-- Witness for C1: a concrete run reaching PLAN_OPTIONS. -/
theorem C1_plan_options_requires_predecessors_witness :
    cS8.boundaryImageUrl.isSome = true ∧ cS8.projectPurpose.isSome = true
      ∧ cS8.designPriority.isSome = true ∧ cS8.datapoints.isSome = true :=
  C1_plan_options_requires_predecessors
    (ReachableSession.step
      (ReachableSession.step
        (ReachableSession.step
          (ReachableSession.step
            (ReachableSession.step
              (ReachableSession.step
                (ReachableSession.step
                  (ReachableSession.step ReachableSession.init
                    (Step.fileSelect cS0 true "site.pdf"
                      (Except.ok "data:image/jpeg;base64,AAAA") rfl))
                  (Step.summaryOk cS1 "### Site Survey Summary" (by decide)))
                (Step.chatStart cS2 "### Site Survey Summary" rfl (by decide) rfl rfl))
              (Step.selectPurpose cS3 "Residential" 100 rfl rfl (by decide) rfl))
            (Step.selectPriority cS4 "Balanced Layout" 200
              (Except.ok "- Coverage Constraints:") rfl rfl (by decide) (by decide)))
          (Step.detectBoundary cS5 (Except.ok "data:image/png;base64,BBBB") (Or.inl rfl)))
        (Step.confirmBoundary cS6 rfl))
      (Step.declineAccessPoints cS7 (Except.ok ()) sampleOutcomes rfl))
    rfl

/-- C2: back from PLAN_REFINEMENT clears exactly the plan artifact and
the analysis text and lands on PLAN_OPTIONS, leaving every other
session field unchanged; back from PLAN_ANALYSIS only moves the stage
to PLAN_REFINEMENT, leaving the plan artifact and every other field
unchanged.  The record-update equalities state the frame exactly. -/
theorem C2_back_navigation_cleanup (s t : Session) :
    (s.appStage = AppStage.PLAN_REFINEMENT →
      handleBack s =
        { s with
          sitePlanImageUrl := none
          planAnalysis := none
          appStage := AppStage.PLAN_OPTIONS })
    ∧ (t.appStage = AppStage.PLAN_ANALYSIS →
      handleBack t = { t with appStage := AppStage.PLAN_REFINEMENT }) := by
  constructor
  · intro h
    simp [handleBack, h]
  · intro h
    simp [handleBack, h]

/-- Witness for C2 at concrete sessions in the two stages. -/
theorem C2_back_navigation_cleanup_witness :
    handleBack refinementSession =
      { refinementSession with
        sitePlanImageUrl := none
        planAnalysis := none
        appStage := AppStage.PLAN_OPTIONS }
    ∧ handleBack analysisStageSession =
      { analysisStageSession with appStage := AppStage.PLAN_REFINEMENT } :=
  ⟨(C2_back_navigation_cleanup refinementSession analysisStageSession).1 rfl,
   (C2_back_navigation_cleanup refinementSession analysisStageSession).2 rfl⟩

/-- C4: serializing a session in the PLAN_REFINEMENT stage with a plan
artifact (a non-empty data URL) and populated parameters, then
restoring the serialized record at startup, yields a session with the
identical stage, the identical parameters object (hence identical
values for every parameter field) and the identical encoded plan
artifact string. -/
theorem C4_persistence_round_trip (s : Session) (u : String) (d : SiteDatapoints)
    (h1 : s.appStage = AppStage.PLAN_REFINEMENT)
    (h2 : s.sitePlanImageUrl = some u) (hu : u ≠ "")
    (h3 : s.datapoints = some d) :
    (restoreFromSaved (save s)).appStage = AppStage.PLAN_REFINEMENT
      ∧ (restoreFromSaved (save s)).sitePlanImageUrl = some u
      ∧ (restoreFromSaved (save s)).datapoints = some d := by
  refine ⟨by simp [restoreFromSaved, save, h1], ?_, by simp [restoreFromSaved, save, h3]⟩
  simp only [restoreFromSaved, save, h2]
  unfold jsOrNone
  split <;> simp_all

/-- Witness for C4 at a concrete plan-refinement session. -/
theorem C4_persistence_round_trip_witness :
    (restoreFromSaved (save refinementSession)).appStage = AppStage.PLAN_REFINEMENT
      ∧ (restoreFromSaved (save refinementSession)).sitePlanImageUrl
          = some "data:image/png;base64,CCCC"
      ∧ (restoreFromSaved (save refinementSession)).datapoints = some sampleDatapoints :=
  C4_persistence_round_trip refinementSession "data:image/png;base64,CCCC"
    sampleDatapoints rfl rfl (by decide) rfl

/-- C5: a persisted record that exists but fails to parse makes the
startup effect fall into its catch block: the session comes up exactly
as the fresh initial session (UPLOAD stage, every optional field
absent, the initial suggestion lists, no error surfaced), the corrupt
record is deleted from storage, and a subsequent restore attempt over
the resulting storage finds nothing and again yields the fresh initial
session. -/
theorem C5_corrupt_persistence_recovery :
    startupLoad (some none) = ({ initialSession with isStateLoaded := true }, none)
      ∧ (startupLoad (some none)).1.appStage = AppStage.UPLOAD
      ∧ (startupLoad (some none)).1.surveyImageUrl = none
      ∧ (startupLoad (some none)).1.boundaryImageUrl = none
      ∧ (startupLoad (some none)).1.accessPointsImageUrl = none
      ∧ (startupLoad (some none)).1.sitePlanImageUrl = none
      ∧ (startupLoad (some none)).1.planOptions = []
      ∧ (startupLoad (some none)).1.planAnalysis = none
      ∧ (startupLoad (some none)).1.messages = []
      ∧ (startupLoad (some none)).1.projectPurpose = none
      ∧ (startupLoad (some none)).1.designPriority = none
      ∧ (startupLoad (some none)).1.aiRecommendations = none
      ∧ (startupLoad (some none)).1.datapoints = none
      ∧ (startupLoad (some none)).1.surveySummary = none
      ∧ (startupLoad (some none)).1.error = none
      ∧ (startupLoad (some none)).2 = none
      ∧ (startupLoad ((startupLoad (some none)).2)).1
          = { initialSession with isStateLoaded := true } := by
  refine ⟨rfl, ?_⟩
  simp [startupLoad, initialSession]

/-- C6: the free-text parameter extraction is total on the ten fields
it assigns (each is the parsed value or its hard default, never null
or NaN), but the returned object never carries the eleventh declared
field: minNumLots is undefined on every input, contradicting the
SiteDatapoints interface of src/types.ts (minNumLots is declared as a
required number, DatapointsForm reads it, and the earlier revision of
parseDatapoints still assigned it with default 5), so the populated
parameters object has only ten of the eleven fields non-null.  The
second conjunct evaluates the code at the failing input, the empty
string. -/
theorem C6_parseDatapoints_minNumLots_undefined :
    (∀ t : String, (parseDatapoints t).minNumLots = none)
      ∧ parseDatapoints "" =
          { maxBuildableCoverage := 50
            minGreenCoverage := 20
            minOpenSpace := 15
            minLotSize := 5000
            minLotWidth := 50
            minNumLots := none
            frontSetback := 20
            rearSetback := 20
            sideSetback := 10
            roadWidth := 24
            sidewalkWidth := 5 } :=
  ⟨fun _ => rfl, by decide⟩

/-- C7: the summarization entry action of the ANALYSIS stage is
guarded: it fires only with the survey artifact present (truthy) and
the summary absent (falsy), and once a summarization has succeeded the
guard evaluates to false, so re-entering ANALYSIS with the summary
already set triggers no second call. -/
theorem C7_summarization_guard_idempotent (s : Session) (summary : String) :
    (summarizeGuard s = true →
      s.appStage = AppStage.ANALYSIS ∧ jsTruthyStr s.surveyImageUrl = true
        ∧ jsTruthyStr s.surveySummary = false)
    ∧ (summary ≠ "" →
      summarizeGuard (applySummarySuccess s summary) = false) := by
  constructor
  · intro h
    simp only [summarizeGuard, Bool.and_eq_true, decide_eq_true_eq,
      Bool.not_eq_true'] at h
    exact ⟨h.1.1.1, h.1.1.2, h.1.2⟩
  · intro h
    simp [summarizeGuard, applySummarySuccess, jsTruthyStr, h]

/-- Witness for C7 at the sample session that has just entered
ANALYSIS, and at the same session after a successful summarization. -/
theorem C7_summarization_guard_idempotent_witness :
    (cS1.appStage = AppStage.ANALYSIS ∧ jsTruthyStr cS1.surveyImageUrl = true
        ∧ jsTruthyStr cS1.surveySummary = false)
      ∧ summarizeGuard (applySummarySuccess cS1 "### Site Survey Summary") = false :=
  ⟨(C7_summarization_guard_idempotent cS1 "### Site Survey Summary").1 (by decide),
   (C7_summarization_guard_idempotent cS1 "### Site Survey Summary").2 (by decide)⟩

/-- C10: selecting a valid PDF runs the full reset of handleUploadNew
before rasterization, so when rasterization then fails the previously
accumulated session state is gone: the session is at the UPLOAD stage
with the conversion error set, every artifact, candidate map, analysis
text, conversation entry, classifier and parameter cleared, and only
the two suggestion lists (untouched by the reset) kept from the prior
session. -/
theorem C10_failed_upload_loses_previous_state (s : Session) (name msg : String) :
    (fileSelectResult s true name (Except.error msg)).appStage = AppStage.UPLOAD
      ∧ (fileSelectResult s true name (Except.error msg)).error
          = some ("Failed to process PDF. " ++ msg)
      ∧ (fileSelectResult s true name (Except.error msg)).surveyPdf = none
      ∧ (fileSelectResult s true name (Except.error msg)).surveyImageUrl = none
      ∧ (fileSelectResult s true name (Except.error msg)).boundaryImageUrl = none
      ∧ (fileSelectResult s true name (Except.error msg)).accessPointsImageUrl = none
      ∧ (fileSelectResult s true name (Except.error msg)).sitePlanImageUrl = none
      ∧ (fileSelectResult s true name (Except.error msg)).planOptions = []
      ∧ (fileSelectResult s true name (Except.error msg)).planAnalysis = none
      ∧ (fileSelectResult s true name (Except.error msg)).datapoints = none
      ∧ (fileSelectResult s true name (Except.error msg)).surveySummary = none
      ∧ (fileSelectResult s true name (Except.error msg)).messages = []
      ∧ (fileSelectResult s true name (Except.error msg)).projectPurpose = none
      ∧ (fileSelectResult s true name (Except.error msg)).designPriority = none
      ∧ (fileSelectResult s true name (Except.error msg)).aiRecommendations = none
      ∧ (fileSelectResult s true name (Except.error msg)).boundarySuggestions
          = s.boundarySuggestions
      ∧ (fileSelectResult s true name (Except.error msg)).planSuggestions
          = s.planSuggestions := by
  simp [fileSelectResult, handleUploadNew]

theorem clearLastOptions_length (l : List ChatMessage) :
    (clearLastOptions l).length = l.length := by
  induction l with
  | nil => rfl
  | cons m rest ih =>
      cases rest with
      | nil => rfl
      | cons m2 r2 => simp [clearLastOptions] at ih ⊢; exact ih

theorem clearLastOptions_getElem_lt (l : List ChatMessage) (i : ℕ)
    (h : i + 1 < l.length) : (clearLastOptions l)[i]? = l[i]? := by
  induction l generalizing i with
  | nil => simp at h
  | cons m rest ih =>
      cases rest with
      | nil => simp at h
      | cons m2 r2 =>
          cases i with
          | zero => simp [clearLastOptions]
          | succ j =>
              simp only [clearLastOptions, List.getElem?_cons_succ]
              exact ih j (by simpa using Nat.lt_of_succ_lt_succ h)

theorem clearLastOptions_getElem_last (l : List ChatMessage) (h : l ≠ []) :
    (clearLastOptions l)[l.length - 1]?
      = (l[l.length - 1]?).map (fun m => { m with options := none }) := by
  induction l with
  | nil => exact absurd rfl h
  | cons m rest ih =>
      cases rest with
      | nil => simp [clearLastOptions]
      | cons m2 r2 =>
          have hne : m2 :: r2 ≠ [] := by simp
          have := ih hne
          simp only [clearLastOptions, List.length_cons] at this ⊢
          simpa [Nat.succ_sub_one] using this

/-- C8: when the user selects an option, the conversation log becomes
the old log with the latest message stripped of its options, followed
by the user message: the length grows by one, every earlier entry is
unchanged (options included), the former last entry keeps all its
fields except options (now absent), and the appended entry is the user
message.  The options of the consumed message are gone from the log,
so they are consumed exactly once. -/
theorem C8_options_consumed_once (msgs : List ChatMessage) (u : ChatMessage)
    (h : msgs ≠ []) :
    (handleOptionSelectMessages msgs u).length = msgs.length + 1
      ∧ (∀ i : ℕ, i + 1 < msgs.length →
          (handleOptionSelectMessages msgs u)[i]? = msgs[i]?)
      ∧ (handleOptionSelectMessages msgs u)[msgs.length - 1]?
          = (msgs[msgs.length - 1]?).map (fun m => { m with options := none })
      ∧ (handleOptionSelectMessages msgs u)[msgs.length]? = some u := by
  have hlen := clearLastOptions_length msgs
  refine ⟨?_, ?_, ?_, ?_⟩
  · simp [handleOptionSelectMessages, hlen]
  · intro i hi
    have hi2 : i < (clearLastOptions msgs).length := by omega
    rw [handleOptionSelectMessages, List.getElem?_append, if_pos hi2]
    exact clearLastOptions_getElem_lt msgs i hi
  · have hpos : 0 < msgs.length := List.length_pos.mpr h
    have hi2 : msgs.length - 1 < (clearLastOptions msgs).length := by omega
    rw [handleOptionSelectMessages, List.getElem?_append, if_pos hi2]
    exact clearLastOptions_getElem_last msgs h
  · rw [handleOptionSelectMessages, List.getElem?_append,
      if_neg (by omega : ¬ msgs.length < (clearLastOptions msgs).length)]
    simp [hlen]

/-- Witness for C8 on a one-message log carrying the purpose options. -/
theorem C8_options_consumed_once_witness :
    (handleOptionSelectMessages [initialSummaryMessage "S"]
        { id := 100, sender := Sender.user, text := "Residential", options := none }).length
        = 2
      ∧ (∀ i : ℕ, i + 1 < 1 →
          (handleOptionSelectMessages [initialSummaryMessage "S"]
            { id := 100, sender := Sender.user, text := "Residential", options := none })[i]?
            = [initialSummaryMessage "S"][i]?)
      ∧ (handleOptionSelectMessages [initialSummaryMessage "S"]
          { id := 100, sender := Sender.user, text := "Residential", options := none })[0]?
          = ([initialSummaryMessage "S"][0]?).map (fun m => { m with options := none })
      ∧ (handleOptionSelectMessages [initialSummaryMessage "S"]
          { id := 100, sender := Sender.user, text := "Residential", options := none })[1]?
          = some { id := 100, sender := Sender.user, text := "Residential", options := none } := by
  have := C8_options_consumed_once [initialSummaryMessage "S"]
    { id := 100, sender := Sender.user, text := "Residential", options := none }
    (by simp)
  simpa using this

theorem lookupPlanOption_cons (e : String × PlanOption) (rest : List (String × PlanOption))
    (name : String) :
    lookupPlanOption (e :: rest) name
      = if e.1 = name then some e.2 else lookupPlanOption rest name := by
  by_cases h : e.1 = name
  · unfold lookupPlanOption
    rw [List.find?_cons_of_pos _ (by simp [h])]
    simp [h]
  · unfold lookupPlanOption
    rw [List.find?_cons_of_neg _ (by simp [h])]
    simp [h, lookupPlanOption]

theorem lookupPlanOption_set (m : List (String × PlanOption)) (name2 url name : String) :
    lookupPlanOption (setPlanOptionUrl m name2 url) name
      = if name2 = name then
          (lookupPlanOption m name).map (fun p => PlanOption.mk (some url) p.description)
        else lookupPlanOption m name := by
  induction m with
  | nil => by_cases h : name2 = name <;> simp [setPlanOptionUrl, lookupPlanOption, h]
  | cons e rest ih =>
      simp only [setPlanOptionUrl, List.map_cons] at ih ⊢
      by_cases he : e.1 = name2 <;> by_cases hn : name2 = name <;>
        by_cases hen : e.1 = name <;>
        simp_all [lookupPlanOption_cons]

theorem lookup_genFold_frame (outcomes : String → Option String)
    (l : List (String × String)) (m : List (String × PlanOption)) (name : String)
    (h : name ∉ l.map Prod.fst) :
    lookupPlanOption
        (l.foldl
          (fun m nt =>
            match outcomes nt.1 with
            | some u => setPlanOptionUrl m nt.1 u
            | none => m)
          m)
        name
      = lookupPlanOption m name := by
  induction l generalizing m with
  | nil => rfl
  | cons nt rest ih =>
      simp only [List.map_cons, List.mem_cons, not_or] at h
      obtain ⟨h1, h2⟩ := h
      simp only [List.foldl_cons]
      rw [ih _ h2]
      cases houtc : outcomes nt.1 with
      | none => rfl
      | some u => rw [lookupPlanOption_set, if_neg (Ne.symm h1)]

theorem lookup_genFold_mem (outcomes : String → Option String)
    (l : List (String × String)) (m : List (String × PlanOption))
    (name desc : String)
    (hmem : (name, desc) ∈ l)
    (hnd : (l.map Prod.fst).Nodup)
    (hm : lookupPlanOption m name = some (PlanOption.mk none desc)) :
    lookupPlanOption
        (l.foldl
          (fun m nt =>
            match outcomes nt.1 with
            | some u => setPlanOptionUrl m nt.1 u
            | none => m)
          m)
        name
      = some (PlanOption.mk (outcomes name) desc) := by
  induction l generalizing m with
  | nil => simp at hmem
  | cons nt rest ih =>
      simp only [List.map_cons, List.nodup_cons] at hnd
      obtain ⟨hhd, hnd2⟩ := hnd
      rcases List.mem_cons.mp hmem with heq | htl
      · have hname : nt.1 = name := by rw [← heq]
        have hrest : name ∉ rest.map Prod.fst := by rw [← hname]; exact hhd
        simp only [List.foldl_cons]
        rw [lookup_genFold_frame outcomes rest _ name hrest]
        cases houtc : outcomes nt.1 with
        | none =>
            rw [hname] at houtc
            rw [hm, houtc]
        | some u =>
            rw [lookupPlanOption_set, if_pos hname, hm]
            rw [hname] at houtc
            rw [houtc]
            rfl
      · have hne : nt.1 ≠ name := by
          intro hc
          refine hhd ?_
          rw [hc]
          exact List.mem_map.mpr ⟨(name, desc), htl, rfl⟩
        simp only [List.foldl_cons]
        apply ih _ htl hnd2
        cases houtc : outcomes nt.1 with
        | none => exact hm
        | some u => rw [lookupPlanOption_set, if_neg hne]; exact hm

/-- C3: with the guard satisfied and the area call succeeding, concept
generation enters PLAN_OPTIONS regardless of the per-candidate
outcomes, leaves the session error absent, and gives every candidate
slot exactly the outcome of its own call: a failed candidate keeps the
null url of its placeholder while each successful candidate carries
its own url; moreover a candidate completion is a keyed merge that
never touches any other slot. -/
theorem C3_concept_generation_partial_failure (s : Session)
    (outcomes : String → Option String)
    (hg : generatePlanOptionsGuard s = true) :
    (generatePlanOptionsResult s (Except.ok ()) outcomes).appStage = AppStage.PLAN_OPTIONS
      ∧ (generatePlanOptionsResult s (Except.ok ()) outcomes).error = none
      ∧ (∀ nd ∈ networkTypes,
          lookupPlanOption
              (generatePlanOptionsResult s (Except.ok ()) outcomes).planOptions nd.1
            = some (PlanOption.mk (outcomes nd.1) nd.2))
      ∧ (∀ (m : List (String × PlanOption)) (name name2 url : String), name2 ≠ name →
          lookupPlanOption (setPlanOptionUrl m name2 url) name = lookupPlanOption m name) := by
  have hres : generatePlanOptionsResult s (Except.ok ()) outcomes
      = { s with
          error := none
          appStage := AppStage.PLAN_OPTIONS
          planOptions := runGenerationLoop outcomes
          isGeneratingPlans := false } := by
    simp [generatePlanOptionsResult, hg]
  refine ⟨by rw [hres], by rw [hres], ?_, ?_⟩
  · intro nd hmem
    rw [hres]
    show lookupPlanOption (runGenerationLoop outcomes) nd.1
      = some (PlanOption.mk (outcomes nd.1) nd.2)
    fin_cases hmem <;>
      exact lookup_genFold_mem outcomes networkTypes planPlaceholders _ _
        (by decide) (by decide) (by decide)
  · intro m name name2 url hne
    rw [lookupPlanOption_set, if_neg hne]

/-- Witness for C3: the sample run in which the Circular candidate
fails while the five others succeed. -/
theorem C3_concept_generation_partial_failure_witness :
    cS8.appStage = AppStage.PLAN_OPTIONS ∧ cS8.error = none
      ∧ (∀ nd ∈ networkTypes,
          lookupPlanOption cS8.planOptions nd.1
            = some (PlanOption.mk (sampleOutcomes nd.1) nd.2))
      ∧ (∀ (m : List (String × PlanOption)) (name name2 url : String), name2 ≠ name →
          lookupPlanOption (setPlanOptionUrl m name2 url) name = lookupPlanOption m name) :=
  C3_concept_generation_partial_failure cS7 sampleOutcomes (by decide)

/-- C9 counterexample: the claim as stated fails on the code at
concrete inputs.  A response that parses as a two-element JSON string
array is a successful fetch whose result is not three strings; and
when the response fails to parse, the adapter returns the empty list
without throwing, so the App-side success path stores the empty list
as the session suggestion set instead of reverting it to the fixed
initial set. -/
theorem C9_suggestion_contract_counterexample :
    suggestionsFromParse (some (JsonValue.arr [JsonValue.str "a", JsonValue.str "b"]))
        = ["a", "b"]
      ∧ (refineBoundaryResult boundaryEditSession
            (Except.ok "data:image/png;base64,R")
            (Except.ok (suggestionsFromParse none))).boundarySuggestions = []
      ∧ INITIAL_BOUNDARY_SUGGESTIONS ≠ [] := by
  refine ⟨rfl, ?_, by decide⟩
  simp [refineBoundaryResult, boundaryEditSession, initialSession,
    boundarySuggestionUpdate, suggestionsFromParse, jsTruthyStr]

/-- C9 (amended): a suggestion fetch whose response parses as a JSON
array of strings returns that array as-is (the adapter enforces no
length, three or otherwise); when the adapter call itself throws, the
App-side catch reverts the session suggestion set to the fixed initial
set; when the response fails to parse as a JSON array of strings, the
adapter returns the empty list non-fatally and the session suggestion
set becomes empty. -/
theorem C9_suggestion_failure_semantics (s : Session) (url : String)
    (r : Except Unit (List String)) (j : JsonValue) (l : List String)
    (hs : jsTruthyStr s.surveyImageUrl = true)
    (hb : jsTruthyStr s.boundaryImageUrl = true) :
    (asStringArray j = some l → suggestionsFromParse (some j) = l)
      ∧ suggestionsFromParse none = []
      ∧ (asStringArray j = none → suggestionsFromParse (some j) = [])
      ∧ (refineBoundaryResult s (Except.ok url) r).boundarySuggestions
          = boundarySuggestionUpdate r
      ∧ boundarySuggestionUpdate (Except.error ()) = INITIAL_BOUNDARY_SUGGESTIONS
      ∧ boundarySuggestionUpdate (Except.ok (suggestionsFromParse none)) = [] := by
  refine ⟨?_, rfl, ?_, ?_, rfl, rfl⟩
  · intro h
    simp [suggestionsFromParse, h]
  · intro h
    simp [suggestionsFromParse, h]
  · simp [refineBoundaryResult, hs, hb]

/-- Witness for the amended C9 at concrete inputs: a three-string
parse, a thrown suggestion fetch, and an unparseable response. -/
theorem C9_suggestion_failure_semantics_witness :
    (asStringArray (JsonValue.arr [JsonValue.str "x", JsonValue.str "y", JsonValue.str "z"])
        = some ["x", "y", "z"] →
      suggestionsFromParse
          (some (JsonValue.arr [JsonValue.str "x", JsonValue.str "y", JsonValue.str "z"]))
        = ["x", "y", "z"])
      ∧ suggestionsFromParse none = []
      ∧ (asStringArray (JsonValue.arr [JsonValue.str "x", JsonValue.str "y", JsonValue.str "z"])
            = none →
          suggestionsFromParse
              (some (JsonValue.arr [JsonValue.str "x", JsonValue.str "y", JsonValue.str "z"]))
            = [])
      ∧ (refineBoundaryResult boundaryEditSession (Except.ok "data:image/png;base64,R")
            (Except.error ())).boundarySuggestions
          = boundarySuggestionUpdate (Except.error ())
      ∧ boundarySuggestionUpdate (Except.error ()) = INITIAL_BOUNDARY_SUGGESTIONS
      ∧ boundarySuggestionUpdate (Except.ok (suggestionsFromParse none)) = [] :=
  C9_suggestion_failure_semantics boundaryEditSession "data:image/png;base64,R"
    (Except.error ())
    (JsonValue.arr [JsonValue.str "x", JsonValue.str "y", JsonValue.str "z"])
    ["x", "y", "z"] (by decide) (by decide)
